import Mathlib

/-!
Shallow embedding of the smart-urban-heatmap-api-wrapper conversion pipeline.

The repository has three converter variants:
 * `src/SensorThingsConverter.py` — the legacy monolithic converter (namespace `Legacy`);
 * `src/latest/SensorThingsConverter_Latest.py` — the modular snapshot path (namespace `Latest`);
 * `src/timeseries/SensorThingsConverter_Timeseries.py` — the per-station time-series
   path (namespace `Timeseries`).

Python dictionaries become Lean structures, lists stay lists, exceptions become
`Except`-typed results, and the HTTP / JSON-library boundary is abstracted into
explicit parameters (status code, response body, loader function).
-/

/-- A JSON-like scalar value, modelling what a pandas row cell can hold for the
`outdated`, `measurementsPlausible`, `temperature` and `relativeHumidity`
columns. `null` models Python `None` / missing (`row.get` returning `None`). -/
inductive JVal where
  | null : JVal
  | num (q : Rat) : JVal
  | str (s : String) : JVal
  | bool (b : Bool) : JVal
deriving DecidableEq, Repr

/-- An Observation entity dictionary, shared by the snapshot and time-series
paths: `{"Datastream": {"@iot.id": ...}, "phenomenonTime": ..., "resultTime": ...,
"result": ...}`. `datastreamId` is the nested `Datastream.@iot.id`. -/
structure Observation where
  datastreamId : String
  phenomenonTime : String
  resultTime : String
  result : JVal
deriving DecidableEq, Repr

/-- Error taxonomy of the embedding: `transportError` models the
`requests.HTTPError` raised by `response.raise_for_status()`, `invalidArgument`
the `ValueError` raised on a missing station id, `parseError` a JSON/GeoJSON
parsing exception. -/
inductive ConvError where
  | transportError (status : Nat) : ConvError
  | invalidArgument (msg : String) : ConvError
  | parseError (msg : String) : ConvError
deriving DecidableEq, Repr

namespace Latest

/-- The value found in a row's `dateObserved` cell, as the snapshot
`ObservationBuilder` discriminates it: `timestamp iso` models a value with an
`isoformat` method (`hasattr(ts, 'isoformat')` true) whose `isoformat()` call
returns `iso`; `other s` models any other value, whose `str()` coercion is `s`. -/
inductive DateValue where
  | timestamp (iso : String) : DateValue
  | other (s : String) : DateValue
deriving DecidableEq, Repr

/-- Models `ts_iso = ts.isoformat() if hasattr(ts, 'isoformat') else str(ts)` -/
def tsIso : DateValue → String
  | .timestamp iso => iso
  | .other s => s

/-- A shapely `Point` geometry with its `x` and `y` coordinates. -/
structure GeoPoint where
  x : Rat
  y : Rat
deriving DecidableEq, Repr

/-- One row of the GeoDataFrame produced by `GeoDataLoader.load`.
`geometry = none` models a row whose `geometry` cell is missing or is not a
shapely `Point` (the `isinstance(geom, Point)` test fails); `name = none`
models a missing `name` key, for which the builders substitute `""` via
`row.get("name", "")`. -/
structure Row where
  stationId : String
  name : Option String
  outdated : JVal
  measurementsPlausible : JVal
  geometry : Option GeoPoint
  dateObserved : DateValue
  temperature : JVal
  relativeHumidity : JVal
deriving DecidableEq, Repr

/-- A "Things" entity dictionary as built by `ThingBuilder`. -/
structure Thing where
  iotId : String
  name : String
  description : String
  outdated : JVal
  measurementsPlausible : JVal
deriving DecidableEq, Repr

/-- A "Locations" entity dictionary as built by `LocationBuilder`;
`coordinates` holds the `[geom.x, geom.y]` pair. -/
structure Location where
  iotId : String
  name : String
  description : String
  encodingType : String
  coordinates : GeoPoint
deriving DecidableEq, Repr

/-- A "Datastreams" entity dictionary as built by `DataStreamBuilder`.
`thingId` is the nested `Thing.@iot.id` reference; the fixed
`unitOfMeasurement`, `ObservedProperty` and `Sensor` sub-dictionaries are
summarised by their distinguishing strings. -/
structure Datastream where
  iotId : String
  name : String
  description : String
  unitSymbol : String
  thingId : String
  observedProperty : String
  sensorName : String
deriving DecidableEq, Repr

/-- The entity appended for a row by `ThingBuilder.build`. -/
def ThingBuilder.thingOf (row : Row) : Thing :=
  { iotId := row.stationId
    name := row.name.getD ""
    description := "Sensor station measuring temperature and humidity"
    outdated := row.outdated
    measurementsPlausible := row.measurementsPlausible }

/-- Model of `ThingBuilder.build`: iterates the rows, appending one Thing per row. -/
def ThingBuilder.build : List Row → List Thing
  | [] => []
  | row :: rest => ThingBuilder.thingOf row :: ThingBuilder.build rest

/-- The Location `LocationBuilder.build` appends for a row whose geometry is a
`Point` with coordinates `geom`. -/
def LocationBuilder.locationFor (row : Row) (geom : GeoPoint) : Location :=
  { iotId := row.stationId
    name := row.name.getD ""
    description := "Geographic location of the sensor"
    encodingType := "application/vnd.geo+json"
    coordinates := geom }

/-- Model of `LocationBuilder.build`: iterates the rows; a row whose geometry is not a
`Point` is skipped (`continue`), otherwise one Location is appended. -/
def LocationBuilder.build : List Row → List Location
  | [] => []
  | row :: rest =>
    match row.geometry with
    | none => LocationBuilder.build rest
    | some geom => LocationBuilder.locationFor row geom :: LocationBuilder.build rest

/-- Spec-side per-row Location: `some` exactly when the row's geometry is a
valid point. Used to compare `LocationBuilder.build` with an order-preserving
`filterMap`. -/
def LocationBuilder.locationOf (row : Row) : Option Location :=
  match row.geometry with
  | none => none
  | some geom => some (LocationBuilder.locationFor row geom)

/-- The temperature Datastream appended for a row by `DataStreamBuilder.build`. -/
def DataStreamBuilder.tempDatastreamOf (row : Row) : Datastream :=
  { iotId := row.stationId ++ "-temperature"
    name := "Temperature Datastream for " ++ row.name.getD ""
    description := "Temperature measurements"
    unitSymbol := "°C"
    thingId := row.stationId
    observedProperty := "Temperature"
    sensorName := "Temperature Sensor" }

/-- The humidity Datastream appended for a row by `DataStreamBuilder.build`. -/
def DataStreamBuilder.humDatastreamOf (row : Row) : Datastream :=
  { iotId := row.stationId ++ "-humidity"
    name := "Humidity Datastream for " ++ row.name.getD ""
    description := "Humidity measurements"
    unitSymbol := "%"
    thingId := row.stationId
    observedProperty := "Humidity"
    sensorName := "Humidity Sensor" }

/-- Model of `DataStreamBuilder.build`: iterates the rows, appending the temperature
Datastream and then the humidity Datastream for each row, unconditionally. -/
def DataStreamBuilder.build : List Row → List Datastream
  | [] => []
  | row :: rest =>
    DataStreamBuilder.tempDatastreamOf row ::
    DataStreamBuilder.humDatastreamOf row ::
    DataStreamBuilder.build rest

/-- The temperature Observation appended for a row by `ObservationBuilder.build`. -/
def ObservationBuilder.tempObservationOf (row : Row) : Observation :=
  { datastreamId := row.stationId ++ "-temperature"
    phenomenonTime := tsIso row.dateObserved
    resultTime := tsIso row.dateObserved
    result := row.temperature }

/-- The humidity Observation appended for a row by `ObservationBuilder.build`. -/
def ObservationBuilder.humObservationOf (row : Row) : Observation :=
  { datastreamId := row.stationId ++ "-humidity"
    phenomenonTime := tsIso row.dateObserved
    resultTime := tsIso row.dateObserved
    result := row.relativeHumidity }

/-- Model of `ObservationBuilder.build`: iterates the rows, appending the temperature
Observation and then the humidity Observation for each row, unconditionally. -/
def ObservationBuilder.build : List Row → List Observation
  | [] => []
  | row :: rest =>
    ObservationBuilder.tempObservationOf row ::
    ObservationBuilder.humObservationOf row ::
    ObservationBuilder.build rest

/-- The result dictionary of `SensorThingsConverter.convert`, keyed
`Things` / `Locations` / `Datastreams` / `Observations`. -/
structure SensorThingsResult where
  things : List Thing
  locations : List Location
  datastreams : List Datastream
  observations : List Observation
deriving DecidableEq, Repr

/-- Model of `SmartUrbanHeatMapClient.fetch_latest`: performs the GET (abstracted into
the resulting `status` and `body`) and calls `response.raise_for_status()`,
which raises `requests.HTTPError` exactly for status codes in `[400, 600)`;
otherwise the response text is returned. -/
def SmartUrbanHeatMapClient.fetch_latest (status : Nat) (body : String) :
    Except ConvError String :=
  if 400 ≤ status ∧ status < 600 then .error (.transportError status)
  else .ok body

/-- The final dictionary `SensorThingsConverter.convert` assembles from the
four builders over the same GeoDataFrame. -/
def SensorThingsConverter.assemble (df : List Row) : SensorThingsResult :=
  { things := ThingBuilder.build df
    locations := LocationBuilder.build df
    datastreams := DataStreamBuilder.build df
    observations := ObservationBuilder.build df }

/-- Model of `SensorThingsConverter.convert`: fetches the raw snapshot, loads it via
`GeoDataLoader.load` (abstracted as the fallible `load` parameter, since it
delegates to `json.loads` / `geopandas`), and assembles the four builders'
outputs. Errors from fetch or load are not caught and propagate. -/
def SensorThingsConverter.convert (status : Nat) (body : String)
    (load : String → Except ConvError (List Row)) :
    Except ConvError SensorThingsResult :=
  match SmartUrbanHeatMapClient.fetch_latest status body with
  | .error e => .error e
  | .ok raw =>
    match load raw with
    | .error e => .error e
    | .ok df => .ok (SensorThingsConverter.assemble df)

end Latest

namespace Legacy

/-- Legacy `SensorThingsConverter.fetch_latest` in `src/SensorThingsConverter.py`:
on status 200 it parses the body via `gpd.read_file` (abstracted as the
already-parsed `parsed` rows); on any other status it prints an error message
and returns `None`. The function body raises no exception, so in the
exception-monad embedding every branch is `.ok`. -/
def SensorThingsConverter.fetch_latest (status : Nat) (parsed : List Latest.Row) :
    Except ConvError (Option (List Latest.Row)) :=
  if status = 200 then .ok (some parsed) else .ok none

end Legacy

namespace Timeseries

/-- The value found in a time-series entry's `dateObserved` field, as
`pd.to_datetime` treats it: `parseable iso` models a value that
`pd.to_datetime` converts to a timestamp whose `isoformat()` is `iso`
(a missing field converts to `NaT`, which is also `parseable`);
`unparseable` models a value for which `pd.to_datetime` raises. -/
inductive DateField where
  | parseable (iso : String) : DateField
  | unparseable : DateField
deriving DecidableEq, Repr

/-- One entry of the time-series `values` list. `temperature = some v` models
`"temperature" in entry` with value `v`; `none` models an absent key, and
likewise for `relativeHumidity`. -/
structure TsEntry where
  dateObserved : DateField
  temperature : Option JVal
  relativeHumidity : Option JVal
deriving DecidableEq, Repr

/-- The decoded JSON of a time-series response: either a JSON array of entries,
or a JSON object (`obj (some vs)` when it has a `"values"` key, `obj none`
when it does not). -/
inductive TsRaw where
  | arr (entries : List TsEntry) : TsRaw
  | obj (values : Option (List TsEntry)) : TsRaw
deriving DecidableEq, Repr

/-- What came back over HTTP for a time-series request: a 204 / blank body
(`noContent`), a body that is not valid JSON (`invalidJson`), or decoded
JSON (`json v`). -/
inductive TsResponse where
  | noContent : TsResponse
  | invalidJson : TsResponse
  | json (v : TsRaw) : TsResponse
deriving DecidableEq, Repr

/-- The query URL built by `SmartUrbanHeatMapClient.fetch_timeseries`:
`timeFrom` / `timeTo` are appended only when truthy (present and non-empty). -/
def SmartUrbanHeatMapClient.timeseriesUrl (base_url station_id : String)
    (time_from time_to : Option String) : String :=
  let url := base_url ++ "/timeseries?stationId=" ++ station_id
  let url := url ++ (match time_from with
    | some t => if t = "" then "" else "&timeFrom=" ++ t
    | none => "")
  url ++ (match time_to with
    | some t => if t = "" then "" else "&timeTo=" ++ t
    | none => "")

/-- Model of `SmartUrbanHeatMapClient.fetch_timeseries`: issues the GET for the built
URL (the network is abstracted as `net`, which may raise — modelling a
`requests` exception — or deliver a `TsResponse`). A 204 / blank body gives
`[]`; a JSON decode error is caught, a warning printed, and `[]` returned;
otherwise the decoded JSON is returned as-is (list or dict). -/
def SmartUrbanHeatMapClient.fetch_timeseries (base_url : String)
    (net : String → Except String TsResponse)
    (station_id : String) (time_from time_to : Option String) :
    Except String TsRaw :=
  match net (SmartUrbanHeatMapClient.timeseriesUrl base_url station_id time_from time_to) with
  | .error e => .error e
  | .ok .noContent => .ok (.arr [])
  | .ok .invalidJson => .ok (.arr [])
  | .ok (.json v) => .ok v

/-- Models `values = ts_data.get("values", []) if isinstance(ts_data, dict) else ts_data` -/
def valuesOf : TsRaw → List TsEntry
  | .arr entries => entries
  | .obj (some values) => values
  | .obj none => []

/-- The loop body of `TimeSeriesObservationBuilder.build` for one entry:
`pd.to_datetime` on the entry's `dateObserved` (raising if unparseable), then
a temperature Observation if the `temperature` key is present, then a humidity
Observation if the `relativeHumidity` key is present. -/
def TimeSeriesObservationBuilder.buildEntry (station_id : String) (entry : TsEntry) :
    Except String (List Observation) :=
  match entry.dateObserved with
  | .unparseable => .error "pd.to_datetime failed"
  | .parseable ts_iso =>
    .ok ((match entry.temperature with
          | some v =>
            [{ datastreamId := station_id ++ "-temperature"
               phenomenonTime := ts_iso
               resultTime := ts_iso
               result := v }]
          | none => []) ++
         (match entry.relativeHumidity with
          | some v =>
            [{ datastreamId := station_id ++ "-humidity"
               phenomenonTime := ts_iso
               resultTime := ts_iso
               result := v }]
          | none => []))

/-- Model of `TimeSeriesObservationBuilder.build`: iterates the entries, appending each
entry's Observations; an exception while handling an entry aborts the loop. -/
def TimeSeriesObservationBuilder.build (station_id : String) :
    List TsEntry → Except String (List Observation)
  | [] => .ok []
  | entry :: rest =>
    match TimeSeriesObservationBuilder.buildEntry station_id entry with
    | .error e => .error e
    | .ok obs =>
      match TimeSeriesObservationBuilder.build station_id rest with
      | .error e => .error e
      | .ok more => .ok (obs ++ more)

/-- The result dictionary `{"Observations": [...]}` of `convert_timeseries`. -/
structure TsResult where
  observations : List Observation
deriving DecidableEq, Repr

/-- The `try` block of `SensorThingsConverter.convert_timeseries`: fetches the
time series, normalises it to a flat `values` list (`ts_data.get("values", [])`
for a dict, `ts_data` itself otherwise), returns `{"Observations": []}` when
that list is empty (a logged, normal outcome), and otherwise builds the
Observations. Exceptions (the `.error` results) escape this block. -/
def SensorThingsConverter.tryConvert (base_url : String)
    (net : String → Except String TsResponse)
    (station_id : String) (time_from time_to : Option String) :
    Except String TsResult :=
  match SmartUrbanHeatMapClient.fetch_timeseries base_url net station_id time_from time_to with
  | .error e => .error e
  | .ok ts_data =>
    let values := valuesOf ts_data
    if values.isEmpty then
      .ok { observations := [] }
    else
      match TimeSeriesObservationBuilder.build station_id values with
      | .error e => .error e
      | .ok observations => .ok { observations := observations }

/-- Model of `SensorThingsConverter.convert_timeseries`: rejects a falsy (empty)
`station_id` with a `ValueError` before the `try` block; then runs the `try`
block (`tryConvert`); any exception it raises (from fetch or build) is caught,
logged and converted to `{"Observations": []}`. -/
def SensorThingsConverter.convert_timeseries (base_url : String)
    (net : String → Except String TsResponse)
    (station_id : String) (time_from time_to : Option String) :
    Except ConvError TsResult :=
  if station_id = "" then
    .error (.invalidArgument "Bitte gib eine gültige stationId mit --stationId an.")
  else
    match SensorThingsConverter.tryConvert base_url net station_id time_from time_to with
    | .ok r => .ok r
    | .error _ => .ok { observations := [] }

end Timeseries

namespace Latest

lemma ThingBuilder.things_length (df : List Row) :
    (ThingBuilder.build df).length = df.length := by
  induction df with
  | nil => rfl
  | cons row rest ih => simp [ThingBuilder.build, ih]

lemma ThingBuilder.things_get (df : List Row) (i : Nat) :
    (ThingBuilder.build df)[i]? = (df[i]?).map ThingBuilder.thingOf := by
  induction df generalizing i with
  | nil => simp [ThingBuilder.build]
  | cons row rest ih =>
    cases i with
    | zero => simp [ThingBuilder.build]
    | succ j => simpa [ThingBuilder.build] using ih j

lemma DataStreamBuilder.dstreams_length (df : List Row) :
    (DataStreamBuilder.build df).length = 2 * df.length := by
  induction df with
  | nil => rfl
  | cons row rest ih => simp [DataStreamBuilder.build, ih]; ring

lemma DataStreamBuilder.dstreams_get_pair (df : List Row) (i : Nat) (h : i < df.length) :
    (DataStreamBuilder.build df)[2 * i]? =
      some (DataStreamBuilder.tempDatastreamOf (df.get ⟨i, h⟩)) ∧
    (DataStreamBuilder.build df)[2 * i + 1]? =
      some (DataStreamBuilder.humDatastreamOf (df.get ⟨i, h⟩)) := by
  induction df generalizing i with
  | nil => exact absurd h (Nat.not_lt_zero i)
  | cons row rest ih =>
    cases i with
    | zero => simp [DataStreamBuilder.build]
    | succ j =>
      have hj : j < rest.length := Nat.lt_of_succ_lt_succ h
      have e1 : 2 * (j + 1) = 2 * j + 1 + 1 := by ring
      rw [e1]
      simpa [DataStreamBuilder.build] using ih j hj

lemma DataStreamBuilder.temp_mem (df : List Row) (row : Row) (hrow : row ∈ df) :
    DataStreamBuilder.tempDatastreamOf row ∈ DataStreamBuilder.build df := by
  induction df with
  | nil => cases hrow
  | cons r rest ih =>
    rcases List.mem_cons.mp hrow with h | h
    · subst h; simp [DataStreamBuilder.build]
    · simp [DataStreamBuilder.build, ih h]

lemma DataStreamBuilder.hum_mem (df : List Row) (row : Row) (hrow : row ∈ df) :
    DataStreamBuilder.humDatastreamOf row ∈ DataStreamBuilder.build df := by
  induction df with
  | nil => cases hrow
  | cons r rest ih =>
    rcases List.mem_cons.mp hrow with h | h
    · subst h; simp [DataStreamBuilder.build]
    · simp [DataStreamBuilder.build, ih h]

lemma ObservationBuilder.obs_length (df : List Row) :
    (ObservationBuilder.build df).length = 2 * df.length := by
  induction df with
  | nil => rfl
  | cons row rest ih => simp [ObservationBuilder.build, ih]; ring

lemma ObservationBuilder.obs_get_pair (df : List Row) (i : Nat) (h : i < df.length) :
    (ObservationBuilder.build df)[2 * i]? =
      some (ObservationBuilder.tempObservationOf (df.get ⟨i, h⟩)) ∧
    (ObservationBuilder.build df)[2 * i + 1]? =
      some (ObservationBuilder.humObservationOf (df.get ⟨i, h⟩)) := by
  induction df generalizing i with
  | nil => exact absurd h (Nat.not_lt_zero i)
  | cons row rest ih =>
    cases i with
    | zero => simp [ObservationBuilder.build]
    | succ j =>
      have hj : j < rest.length := Nat.lt_of_succ_lt_succ h
      have e1 : 2 * (j + 1) = 2 * j + 1 + 1 := by ring
      rw [e1]
      simpa [ObservationBuilder.build] using ih j hj

lemma ObservationBuilder.obs_mem (df : List Row) (o : Observation)
    (ho : o ∈ ObservationBuilder.build df) :
    ∃ row ∈ df, o = ObservationBuilder.tempObservationOf row ∨
      o = ObservationBuilder.humObservationOf row := by
  induction df with
  | nil => cases ho
  | cons row rest ih =>
    rcases List.mem_cons.mp ho with h | h'
    · exact ⟨row, List.mem_cons_self _ _, Or.inl h⟩
    rcases List.mem_cons.mp h' with h | h
    · exact ⟨row, List.mem_cons_self _ _, Or.inr h⟩
    · obtain ⟨r, hr, hor⟩ := ih h
      exact ⟨r, List.mem_cons_of_mem _ hr, hor⟩

lemma LocationBuilder.build_eq_filterMap (df : List Row) :
    LocationBuilder.build df = df.filterMap LocationBuilder.locationOf := by
  induction df with
  | nil => rfl
  | cons row rest ih =>
    cases hg : row.geometry with
    | none => simp [LocationBuilder.build, LocationBuilder.locationOf, hg, ih]
    | some geom => simp [LocationBuilder.build, LocationBuilder.locationOf, hg, ih]

lemma LocationBuilder.locations_length (df : List Row) :
    (LocationBuilder.build df).length =
      (df.filter fun r => r.geometry.isSome).length := by
  induction df with
  | nil => rfl
  | cons row rest ih =>
    cases hg : row.geometry with
    | none => simp [LocationBuilder.build, hg, ih, List.filter_cons]
    | some geom => simp [LocationBuilder.build, hg, ih, List.filter_cons]

lemma LocationBuilder.locations_mem (df : List Row) (l : Location)
    (hl : l ∈ LocationBuilder.build df) :
    ∃ row ∈ df, ∃ geom, row.geometry = some geom ∧
      l = LocationBuilder.locationFor row geom := by
  induction df with
  | nil => cases hl
  | cons row rest ih =>
    cases hg : row.geometry with
    | none =>
      rw [LocationBuilder.build, hg] at hl
      obtain ⟨r, hr, hgr⟩ := ih hl
      exact ⟨r, List.mem_cons_of_mem _ hr, hgr⟩
    | some geom =>
      rw [LocationBuilder.build, hg] at hl
      rcases List.mem_cons.mp hl with h | h
      · exact ⟨row, List.mem_cons_self _ _, geom, hg, h⟩
      · obtain ⟨r, hr, hgr⟩ := ih h
        exact ⟨r, List.mem_cons_of_mem _ hr, hgr⟩

end Latest

/-- C2: `DataStreamBuilder.build` emits exactly two Datastreams per row,
unconditionally: the output length is `2 × rowCount`, and for every row index
`i` the entity at position `2i` has id `{stationId}-temperature` and the one at
`2i + 1` has id `{stationId}-humidity`, each referencing the parent Thing by
`stationId`, regardless of which readings the row carries. -/
theorem datastream_builder_two_per_row (df : List Latest.Row) (i : Nat)
    (h : i < df.length) :
    (Latest.DataStreamBuilder.build df).length = 2 * df.length ∧
    ∃ d1 d2,
      (Latest.DataStreamBuilder.build df)[2 * i]? = some d1 ∧
      (Latest.DataStreamBuilder.build df)[2 * i + 1]? = some d2 ∧
      d1.iotId = (df.get ⟨i, h⟩).stationId ++ "-temperature" ∧
      d1.thingId = (df.get ⟨i, h⟩).stationId ∧
      d2.iotId = (df.get ⟨i, h⟩).stationId ++ "-humidity" ∧
      d2.thingId = (df.get ⟨i, h⟩).stationId := by
  obtain ⟨h1, h2⟩ := Latest.DataStreamBuilder.dstreams_get_pair df i h
  exact ⟨Latest.DataStreamBuilder.dstreams_length df,
    Latest.DataStreamBuilder.tempDatastreamOf (df.get ⟨i, h⟩),
    Latest.DataStreamBuilder.humDatastreamOf (df.get ⟨i, h⟩),
    h1, h2, rfl, rfl, rfl, rfl⟩

/-- A concrete sample row (station 11117 from the spec's examples), used by
the witness theorems. -/
def sampleRow : Latest.Row :=
  { stationId := "11117"
    name := some "Bern"
    outdated := JVal.bool false
    measurementsPlausible := JVal.bool true
    geometry := some { x := 7.44, y := 46.95 }
    dateObserved := Latest.DateValue.timestamp "2024-11-01T00:00:00"
    temperature := JVal.num 21.5
    relativeHumidity := JVal.num 60 }

/-- A concrete sample row with no valid point geometry, used by the witness
theorems. -/
def sampleRowNoGeom : Latest.Row :=
  { stationId := "11118"
    name := none
    outdated := JVal.null
    measurementsPlausible := JVal.null
    geometry := none
    dateObserved := Latest.DateValue.other "nan"
    temperature := JVal.null
    relativeHumidity := JVal.null }

/-- Witness for C2 at a concrete one-row input. -/
theorem datastream_builder_two_per_row_witness :
    (0 : Nat) < ([sampleRowNoGeom] : List Latest.Row).length ∧
    (Latest.DataStreamBuilder.build [sampleRowNoGeom]).length = 2 * 1 :=
  ⟨by decide,
    (datastream_builder_two_per_row [sampleRowNoGeom] 0 (by decide)).1⟩

/-- C3: the snapshot-path `ObservationBuilder.build` emits exactly two
Observations per row unconditionally (length `2 × rowCount`, even when a
reading is absent, i.e. null); for each row index `i`, the Observation at
position `2i` references `{stationId}-temperature` and the one at `2i + 1`
references `{stationId}-humidity`; in each, `phenomenonTime` equals
`resultTime`, both being the row's `dateObserved` rendered by `tsIso`
(its `isoformat()` when it is a native timestamp value, its `str()` coercion
otherwise), and `result` is the row's temperature respectively
relativeHumidity value. -/
theorem observation_builder_snapshot_unconditional (df : List Latest.Row) (i : Nat)
    (h : i < df.length) :
    (Latest.ObservationBuilder.build df).length = 2 * df.length ∧
    (∃ o1 o2,
      (Latest.ObservationBuilder.build df)[2 * i]? = some o1 ∧
      (Latest.ObservationBuilder.build df)[2 * i + 1]? = some o2 ∧
      o1.datastreamId = (df.get ⟨i, h⟩).stationId ++ "-temperature" ∧
      o2.datastreamId = (df.get ⟨i, h⟩).stationId ++ "-humidity" ∧
      o1.phenomenonTime = o1.resultTime ∧
      o2.phenomenonTime = o2.resultTime ∧
      o1.phenomenonTime = Latest.tsIso (df.get ⟨i, h⟩).dateObserved ∧
      o2.phenomenonTime = Latest.tsIso (df.get ⟨i, h⟩).dateObserved ∧
      o1.result = (df.get ⟨i, h⟩).temperature ∧
      o2.result = (df.get ⟨i, h⟩).relativeHumidity) ∧
    (∀ s, Latest.tsIso (Latest.DateValue.timestamp s) = s) ∧
    (∀ s, Latest.tsIso (Latest.DateValue.other s) = s) := by
  obtain ⟨h1, h2⟩ := Latest.ObservationBuilder.obs_get_pair df i h
  exact ⟨Latest.ObservationBuilder.obs_length df,
    ⟨Latest.ObservationBuilder.tempObservationOf (df.get ⟨i, h⟩),
     Latest.ObservationBuilder.humObservationOf (df.get ⟨i, h⟩),
     h1, h2, rfl, rfl, rfl, rfl, rfl, rfl, rfl, rfl⟩,
    fun _ => rfl, fun _ => rfl⟩

/-- Witness for C3 at the spec's example row (station 11117, temperature 21.5,
relativeHumidity 60, dateObserved 2024-11-01T00:00:00). -/
theorem observation_builder_snapshot_unconditional_witness :
    (0 : Nat) < ([sampleRow] : List Latest.Row).length ∧
    (Latest.ObservationBuilder.build [sampleRow]).length = 2 * 1 ∧
    Latest.ObservationBuilder.build [sampleRow] =
      [⟨"11117-temperature", "2024-11-01T00:00:00", "2024-11-01T00:00:00", JVal.num 21.5⟩,
       ⟨"11117-humidity", "2024-11-01T00:00:00", "2024-11-01T00:00:00", JVal.num 60⟩] :=
  ⟨by decide,
   (observation_builder_snapshot_unconditional [sampleRow] 0 (by decide)).1,
   rfl⟩

/-- C5: `LocationBuilder.build` emits one Location per row exactly when the
row's geometry is a valid point — rows whose geometry is missing or not a
point are silently skipped — while `ThingBuilder.build` emits one Thing per
row unconditionally; hence the Location count equals the count of rows with
valid geometry, and every emitted Location stems from a row with a valid
point geometry. -/
theorem location_builder_skips_invalid_geometry (df : List Latest.Row) :
    (Latest.ThingBuilder.build df).length = df.length ∧
    (Latest.LocationBuilder.build df).length =
      (df.filter fun r => r.geometry.isSome).length ∧
    ∀ l ∈ Latest.LocationBuilder.build df, ∃ row ∈ df, ∃ geom,
      row.geometry = some geom ∧ l.iotId = row.stationId ∧ l.coordinates = geom := by
  refine ⟨Latest.ThingBuilder.things_length df, Latest.LocationBuilder.locations_length df, ?_⟩
  intro l hl
  obtain ⟨row, hrow, geom, hg, hloc⟩ := Latest.LocationBuilder.locations_mem df l hl
  exact ⟨row, hrow, geom, hg, by rw [hloc]; rfl, by rw [hloc]; rfl⟩

/-- Witness for C5 at a two-row input: one row with a valid point geometry,
one without, giving two Things and one Location. -/
theorem location_builder_skips_invalid_geometry_witness :
    (Latest.ThingBuilder.build [sampleRow, sampleRowNoGeom]).length = 2 ∧
    (Latest.LocationBuilder.build [sampleRow, sampleRowNoGeom]).length = 1 :=
  ⟨(location_builder_skips_invalid_geometry [sampleRow, sampleRowNoGeom]).1,
   by rw [(location_builder_skips_invalid_geometry [sampleRow, sampleRowNoGeom]).2.1]; decide⟩

/-- C9: in the dictionary `SensorThingsConverter.convert` assembles from the
four builders over the same row set, every Observation's Datastream reference
equals the `@iot.id` of some Datastream produced in the same run. -/
theorem observation_references_some_datastream (df : List Latest.Row)
    (o : Observation)
    (ho : o ∈ (Latest.SensorThingsConverter.assemble df).observations) :
    ∃ d ∈ (Latest.SensorThingsConverter.assemble df).datastreams,
      o.datastreamId = d.iotId := by
  obtain ⟨row, hrow, hor⟩ := Latest.ObservationBuilder.obs_mem df o ho
  rcases hor with hor | hor
  · exact ⟨Latest.DataStreamBuilder.tempDatastreamOf row,
      Latest.DataStreamBuilder.temp_mem df row hrow, by rw [hor]; rfl⟩
  · exact ⟨Latest.DataStreamBuilder.humDatastreamOf row,
      Latest.DataStreamBuilder.hum_mem df row hrow, by rw [hor]; rfl⟩

/-- Witness for C9: the temperature Observation of a concrete one-row
conversion references a Datastream of the same run. -/
theorem observation_references_some_datastream_witness :
    ∃ d ∈ (Latest.SensorThingsConverter.assemble [sampleRow]).datastreams,
      (Latest.ObservationBuilder.tempObservationOf sampleRow).datastreamId = d.iotId :=
  observation_references_some_datastream [sampleRow]
    (Latest.ObservationBuilder.tempObservationOf sampleRow)
    (List.mem_cons_self _ _)

/-- C10: snapshot output order follows input row order: `Things[i]` is built
from row `i`; `Datastreams[2i]` and `Datastreams[2i+1]` are row `i`'s
temperature and then humidity Datastreams; `Observations[2i]` and
`Observations[2i+1]` are row `i`'s temperature and then humidity
Observations; and `Locations` is the row-ordered `filterMap` of the per-row
Location (rows with valid geometry only). -/
theorem snapshot_output_order (df : List Latest.Row) (i : Nat) (h : i < df.length) :
    (Latest.SensorThingsConverter.assemble df).things[i]? =
      some (Latest.ThingBuilder.thingOf (df.get ⟨i, h⟩)) ∧
    (Latest.SensorThingsConverter.assemble df).datastreams[2 * i]? =
      some (Latest.DataStreamBuilder.tempDatastreamOf (df.get ⟨i, h⟩)) ∧
    (Latest.SensorThingsConverter.assemble df).datastreams[2 * i + 1]? =
      some (Latest.DataStreamBuilder.humDatastreamOf (df.get ⟨i, h⟩)) ∧
    (Latest.SensorThingsConverter.assemble df).observations[2 * i]? =
      some (Latest.ObservationBuilder.tempObservationOf (df.get ⟨i, h⟩)) ∧
    (Latest.SensorThingsConverter.assemble df).observations[2 * i + 1]? =
      some (Latest.ObservationBuilder.humObservationOf (df.get ⟨i, h⟩)) ∧
    (Latest.SensorThingsConverter.assemble df).locations =
      df.filterMap Latest.LocationBuilder.locationOf := by
  obtain ⟨hd1, hd2⟩ := Latest.DataStreamBuilder.dstreams_get_pair df i h
  obtain ⟨ho1, ho2⟩ := Latest.ObservationBuilder.obs_get_pair df i h
  refine ⟨?_, hd1, hd2, ho1, ho2, Latest.LocationBuilder.build_eq_filterMap df⟩
  rw [show (Latest.SensorThingsConverter.assemble df).things =
      Latest.ThingBuilder.build df from rfl,
    Latest.ThingBuilder.things_get df i, List.getElem?_eq_getElem h]
  simp [List.get_eq_getElem]

/-- Witness for C10 at a concrete one-row input. -/
theorem snapshot_output_order_witness :
    (Latest.SensorThingsConverter.assemble [sampleRow]).things[0]? =
      some (Latest.ThingBuilder.thingOf sampleRow) :=
  (snapshot_output_order [sampleRow] 0 (by decide)).1

namespace Timeseries

/-- The `isoformat()` string of an entry's parsed timestamp (junk `""` for an
unparseable entry, which never contributes Observations). -/
def entryIso (e : TsEntry) : String :=
  match e.dateObserved with
  | .parseable iso => iso
  | .unparseable => ""

/-- Spec-side: the Observations a single time-series entry contributes — a
temperature Observation exactly when the entry carries a `temperature` key,
followed by a humidity Observation exactly when it carries a
`relativeHumidity` key. -/
def observationsForEntry (station_id : String) (entry : TsEntry) : List Observation :=
  (match entry.temperature with
   | some v => [⟨station_id ++ "-temperature", entryIso entry, entryIso entry, v⟩]
   | none => []) ++
  (match entry.relativeHumidity with
   | some v => [⟨station_id ++ "-humidity", entryIso entry, entryIso entry, v⟩]
   | none => [])

lemma TimeSeriesObservationBuilder.buildEntry_ok (sid : String) (e : TsEntry)
    (obs : List Observation)
    (h : TimeSeriesObservationBuilder.buildEntry sid e = .ok obs) :
    obs = observationsForEntry sid e := by
  cases he : e.dateObserved with
  | unparseable =>
    simp only [TimeSeriesObservationBuilder.buildEntry, he] at h
    exact Except.noConfusion h
  | parseable iso =>
    simp only [TimeSeriesObservationBuilder.buildEntry, he] at h
    injection h with h
    simp only [observationsForEntry, entryIso, he]
    exact h.symm

lemma TimeSeriesObservationBuilder.build_ok (sid : String) (entries : List TsEntry)
    (obs : List Observation)
    (h : TimeSeriesObservationBuilder.build sid entries = .ok obs) :
    obs = entries.flatMap (observationsForEntry sid) := by
  induction entries generalizing obs with
  | nil =>
    simp only [TimeSeriesObservationBuilder.build] at h
    injection h with h
    simp [h.symm]
  | cons e rest ih =>
    rw [TimeSeriesObservationBuilder.build] at h
    cases hbe : TimeSeriesObservationBuilder.buildEntry sid e with
    | error msg => rw [hbe] at h; exact Except.noConfusion h
    | ok o =>
      rw [hbe] at h
      cases hbr : TimeSeriesObservationBuilder.build sid rest with
      | error msg => rw [hbr] at h; exact Except.noConfusion h
      | ok more =>
        rw [hbr] at h
        injection h with h
        rw [← h, List.flatMap_cons,
          ← TimeSeriesObservationBuilder.buildEntry_ok sid e o hbe,
          ← ih more hbr]

lemma TimeSeriesObservationBuilder.build_error (sid : String)
    (entries : List TsEntry)
    (h : ∃ e ∈ entries, e.dateObserved = DateField.unparseable) :
    ∃ msg, TimeSeriesObservationBuilder.build sid entries = .error msg := by
  induction entries with
  | nil => obtain ⟨e, he, _⟩ := h; cases he
  | cons a rest ih =>
    obtain ⟨e, he, hu⟩ := h
    rcases List.mem_cons.mp he with rfl | hmem
    · refine ⟨"pd.to_datetime failed", ?_⟩
      rw [TimeSeriesObservationBuilder.build,
        show TimeSeriesObservationBuilder.buildEntry sid e = .error "pd.to_datetime failed"
          from by simp only [TimeSeriesObservationBuilder.buildEntry, hu]]
    · obtain ⟨msg, hmsg⟩ := ih ⟨e, hmem, hu⟩
      cases hba : TimeSeriesObservationBuilder.buildEntry sid a with
      | error m => exact ⟨m, by rw [TimeSeriesObservationBuilder.build, hba]⟩
      | ok o => exact ⟨msg, by rw [TimeSeriesObservationBuilder.build, hba, hmsg]⟩

lemma SensorThingsConverter.convert_timeseries_eq (base_url : String)
    (net : String → Except String TsResponse) (station_id : String)
    (time_from time_to : Option String) (h : station_id ≠ "") :
    SensorThingsConverter.convert_timeseries base_url net station_id time_from time_to =
      match SensorThingsConverter.tryConvert base_url net station_id time_from time_to with
      | .ok r => .ok r
      | .error _ => .ok { observations := [] } := by
  rw [SensorThingsConverter.convert_timeseries, if_neg h]

lemma SensorThingsConverter.tryConvert_fetch_error (base_url : String)
    (net : String → Except String TsResponse) (station_id : String)
    (time_from time_to : Option String) (e : String)
    (hF : SmartUrbanHeatMapClient.fetch_timeseries base_url net station_id time_from time_to = .error e) :
    SensorThingsConverter.tryConvert base_url net station_id time_from time_to = .error e := by
  rw [SensorThingsConverter.tryConvert, hF]

lemma SensorThingsConverter.tryConvert_empty (base_url : String)
    (net : String → Except String TsResponse) (station_id : String)
    (time_from time_to : Option String) (raw : TsRaw)
    (hF : SmartUrbanHeatMapClient.fetch_timeseries base_url net station_id time_from time_to = .ok raw)
    (hv : valuesOf raw = []) :
    SensorThingsConverter.tryConvert base_url net station_id time_from time_to =
      .ok { observations := [] } := by
  rw [SensorThingsConverter.tryConvert, hF]
  simp [hv]

lemma SensorThingsConverter.tryConvert_build_error (base_url : String)
    (net : String → Except String TsResponse) (station_id : String)
    (time_from time_to : Option String) (raw : TsRaw) (e : String)
    (hF : SmartUrbanHeatMapClient.fetch_timeseries base_url net station_id time_from time_to = .ok raw)
    (hb : TimeSeriesObservationBuilder.build station_id (valuesOf raw) = .error e) :
    SensorThingsConverter.tryConvert base_url net station_id time_from time_to = .error e := by
  have hne : (valuesOf raw).isEmpty = false := by
    cases hv : valuesOf raw with
    | nil =>
      rw [hv, TimeSeriesObservationBuilder.build] at hb
      exact Except.noConfusion hb
    | cons a l => rfl
  rw [SensorThingsConverter.tryConvert, hF]
  simp [hne, hb]

/-- C1: for every non-empty stationId, `convert_timeseries` never propagates an
exception from fetching or building: it always yields an `ok` result; when the
fetch raises, when the normalised `values` list is empty, and when the build
raises, the result is `{"Observations": []}`. -/
theorem convert_timeseries_degrades_not_fails (base_url : String)
    (net : String → Except String TsResponse) (station_id : String)
    (time_from time_to : Option String) (h : station_id ≠ "") :
    (∃ r, SensorThingsConverter.convert_timeseries base_url net station_id time_from time_to = .ok r) ∧
    (∀ e, SmartUrbanHeatMapClient.fetch_timeseries base_url net station_id time_from time_to = .error e →
      SensorThingsConverter.convert_timeseries base_url net station_id time_from time_to =
        .ok { observations := [] }) ∧
    (∀ raw, SmartUrbanHeatMapClient.fetch_timeseries base_url net station_id time_from time_to = .ok raw →
      valuesOf raw = [] →
      SensorThingsConverter.convert_timeseries base_url net station_id time_from time_to =
        .ok { observations := [] }) ∧
    (∀ raw e, SmartUrbanHeatMapClient.fetch_timeseries base_url net station_id time_from time_to = .ok raw →
      TimeSeriesObservationBuilder.build station_id (valuesOf raw) = .error e →
      SensorThingsConverter.convert_timeseries base_url net station_id time_from time_to =
        .ok { observations := [] }) := by
  refine ⟨?_, ?_, ?_, ?_⟩
  · rw [SensorThingsConverter.convert_timeseries_eq base_url net station_id time_from time_to h]
    cases SensorThingsConverter.tryConvert base_url net station_id time_from time_to with
    | ok r => exact ⟨r, rfl⟩
    | error e => exact ⟨{ observations := [] }, rfl⟩
  · intro e hF
    rw [SensorThingsConverter.convert_timeseries_eq base_url net station_id time_from time_to h,
      SensorThingsConverter.tryConvert_fetch_error base_url net station_id time_from time_to e hF]
  · intro raw hF hv
    rw [SensorThingsConverter.convert_timeseries_eq base_url net station_id time_from time_to h,
      SensorThingsConverter.tryConvert_empty base_url net station_id time_from time_to raw hF hv]
  · intro raw e hF hb
    rw [SensorThingsConverter.convert_timeseries_eq base_url net station_id time_from time_to h,
      SensorThingsConverter.tryConvert_build_error base_url net station_id time_from time_to raw e hF hb]

/-- Witness for C1: with a network that raises, a non-empty stationId still
gets an `ok` (empty) result. -/
theorem convert_timeseries_degrades_not_fails_witness :
    (("11117" : String) ≠ "") ∧
    SensorThingsConverter.convert_timeseries "https://smart-urban-heat-map.ch/api/v2"
      (fun _ => Except.error "ConnectionError") "11117" none none =
      Except.ok { observations := [] } :=
  ⟨by decide,
   (convert_timeseries_degrades_not_fails "https://smart-urban-heat-map.ch/api/v2"
      (fun _ => Except.error "ConnectionError") "11117" none none (by decide)).2.1
      "ConnectionError" rfl⟩

/-- C4: a successful `TimeSeriesObservationBuilder.build` emits, per entry, a
temperature Observation exactly when the entry has a `temperature` field and a
humidity Observation exactly when it has a `relativeHumidity` field (the
output is the entry-ordered concatenation of those conditional per-entry
Observations); in particular an entry with only a temperature field yields
exactly one Observation. -/
theorem timeseries_observations_conditional (station_id : String)
    (entries : List TsEntry) (obs : List Observation)
    (hok : TimeSeriesObservationBuilder.build station_id entries = .ok obs) :
    obs = entries.flatMap (observationsForEntry station_id) ∧
    (∀ entry : TsEntry, (observationsForEntry station_id entry).length =
      (if entry.temperature.isSome then 1 else 0) +
      (if entry.relativeHumidity.isSome then 1 else 0)) ∧
    (∀ iso v, TimeSeriesObservationBuilder.build station_id
        [⟨DateField.parseable iso, some v, none⟩] =
      .ok [⟨station_id ++ "-temperature", iso, iso, v⟩]) := by
  refine ⟨TimeSeriesObservationBuilder.build_ok station_id entries obs hok, ?_, ?_⟩
  · intro entry
    cases ht : entry.temperature <;> cases hh : entry.relativeHumidity <;>
      simp [observationsForEntry, ht, hh]
  · intro iso v
    rfl

/-- Witness for C4 at the spec's example entry (temperature only, no humidity
field): exactly one Observation. -/
theorem timeseries_observations_conditional_witness :
    TimeSeriesObservationBuilder.build "11117"
      [⟨DateField.parseable "2024-11-02T10:00:00+00:00", some (JVal.num 18.2), none⟩] =
      Except.ok [⟨"11117-temperature", "2024-11-02T10:00:00+00:00",
        "2024-11-02T10:00:00+00:00", JVal.num 18.2⟩] ∧
    ([⟨"11117-temperature", "2024-11-02T10:00:00+00:00",
        "2024-11-02T10:00:00+00:00", JVal.num 18.2⟩] : List Observation) =
      ([⟨DateField.parseable "2024-11-02T10:00:00+00:00", some (JVal.num 18.2), none⟩] :
        List TsEntry).flatMap (observationsForEntry "11117") :=
  ⟨rfl,
   (timeseries_observations_conditional "11117"
      [⟨DateField.parseable "2024-11-02T10:00:00+00:00", some (JVal.num 18.2), none⟩]
      [⟨"11117-temperature", "2024-11-02T10:00:00+00:00",
        "2024-11-02T10:00:00+00:00", JVal.num 18.2⟩] rfl).1⟩

/-- C6: `convert_timeseries` with an empty stationId raises the
`InvalidArgument` (`ValueError`) before the `try` block, so it propagates to
the caller for every base url, network behaviour and choice of the optional
timeFrom/timeTo arguments. -/
theorem convert_timeseries_empty_station_fails (base_url : String)
    (net : String → Except String TsResponse) (time_from time_to : Option String) :
    SensorThingsConverter.convert_timeseries base_url net "" time_from time_to =
      .error (.invalidArgument "Bitte gib eine gültige stationId mit --stationId an.") := rfl

end Timeseries

namespace Timeseries

/-- Counterexample to C7 as stated: with one parseable temperature entry and
one entry whose `dateObserved` is unparseable, the whole conversion returns
`{"Observations": []}` — the good entry's Observation (which the entry yields
on its own, second conjunct) is lost, so a bad entry does corrupt the
conversion of the other entries. -/
theorem bad_entry_corrupts_good_entries_cex :
    SensorThingsConverter.convert_timeseries "https://smart-urban-heat-map.ch/api/v2"
      (fun _ => Except.ok (TsResponse.json (TsRaw.arr
        [⟨DateField.parseable "2024-11-02T10:00:00+00:00", some (JVal.num 18.2), none⟩,
         ⟨DateField.unparseable, some (JVal.num 19), none⟩])))
      "11117" none none = Except.ok { observations := [] } ∧
    TimeSeriesObservationBuilder.build "11117"
      [⟨DateField.parseable "2024-11-02T10:00:00+00:00", some (JVal.num 18.2), none⟩] =
      Except.ok [⟨"11117-temperature", "2024-11-02T10:00:00+00:00",
        "2024-11-02T10:00:00+00:00", JVal.num 18.2⟩] :=
  ⟨rfl, rfl⟩

/-- C7 (amended): an entry whose `dateObserved` is unparseable does not fail
individually — the `pd.to_datetime` exception aborts the whole build loop,
propagates to `convert_timeseries`'s catch-all handler, and the entire
conversion degrades to `{"Observations": []}`, dropping the Observations of
every other entry with a parseable `dateObserved` as well. -/
theorem bad_entry_degrades_whole_conversion (base_url : String)
    (net : String → Except String TsResponse) (station_id : String)
    (time_from time_to : Option String) (raw : TsRaw)
    (h : station_id ≠ "")
    (hF : SmartUrbanHeatMapClient.fetch_timeseries base_url net station_id time_from time_to = .ok raw)
    (hbad : ∃ e ∈ valuesOf raw, e.dateObserved = DateField.unparseable) :
    SensorThingsConverter.convert_timeseries base_url net station_id time_from time_to =
      .ok { observations := [] } := by
  obtain ⟨msg, hmsg⟩ := TimeSeriesObservationBuilder.build_error station_id (valuesOf raw) hbad
  rw [SensorThingsConverter.convert_timeseries_eq base_url net station_id time_from time_to h,
    SensorThingsConverter.tryConvert_build_error base_url net station_id time_from time_to raw msg hF hmsg]

/-- Witness for the amended C7 at a concrete two-entry input. -/
theorem bad_entry_degrades_whole_conversion_witness :
    SensorThingsConverter.convert_timeseries "https://smart-urban-heat-map.ch/api/v2"
      (fun _ => Except.ok (TsResponse.json (TsRaw.arr
        [⟨DateField.parseable "2024-11-02T10:00:00+00:00", some (JVal.num 18), none⟩,
         ⟨DateField.unparseable, none, some (JVal.num 55)⟩])))
      "11117" none none = Except.ok { observations := [] } :=
  bad_entry_degrades_whole_conversion "https://smart-urban-heat-map.ch/api/v2"
    (fun _ => Except.ok (TsResponse.json (TsRaw.arr
      [⟨DateField.parseable "2024-11-02T10:00:00+00:00", some (JVal.num 18), none⟩,
       ⟨DateField.unparseable, none, some (JVal.num 55)⟩])))
    "11117" none none
    (TsRaw.arr
      [⟨DateField.parseable "2024-11-02T10:00:00+00:00", some (JVal.num 18), none⟩,
       ⟨DateField.unparseable, none, some (JVal.num 55)⟩])
    (by decide) rfl
    ⟨⟨DateField.unparseable, none, some (JVal.num 55)⟩, by simp [valuesOf], rfl⟩

end Timeseries

/-- Counterexample to C8 as stated: at HTTP status 500 (not success), the
legacy snapshot `SensorThingsConverter.fetch_latest` in
`src/SensorThingsConverter.py` does not fail with a TransportError — it prints
a message and returns the ordinary value `None`. -/
theorem legacy_fetch_latest_returns_none_cex :
    Legacy.SensorThingsConverter.fetch_latest 500 [] = Except.ok none ∧
    Legacy.SensorThingsConverter.fetch_latest 500 [] ≠
      Except.error (ConvError.transportError 500) := by
  refine ⟨rfl, ?_⟩
  intro hcontra
  rw [show Legacy.SensorThingsConverter.fetch_latest 500 [] = Except.ok none from rfl] at hcontra
  exact Except.noConfusion hcontra

/-- C8 (amended): the modular snapshot path is fail-fast — its `fetch_latest`
raises a TransportError for every 4xx/5xx status, `convert` propagates that
error, and a load (parse) error on a successful status also propagates — but
the legacy monolith's `fetch_latest` instead logs and returns `None` on any
non-200 status rather than raising. -/
theorem snapshot_failfast_modular_only (status : Nat) (body : String)
    (load : String → Except ConvError (List Latest.Row))
    (parsed : List Latest.Row) (e : ConvError)
    (h4 : 400 ≤ status) (h6 : status < 600) :
    Latest.SmartUrbanHeatMapClient.fetch_latest status body =
      .error (.transportError status) ∧
    Latest.SensorThingsConverter.convert status body load =
      .error (.transportError status) ∧
    (∀ st bd, ¬ (400 ≤ st ∧ st < 600) → load bd = .error e →
      Latest.SensorThingsConverter.convert st bd load = .error e) ∧
    Legacy.SensorThingsConverter.fetch_latest status parsed = .ok none := by
  have hf : Latest.SmartUrbanHeatMapClient.fetch_latest status body =
      .error (.transportError status) := by
    rw [Latest.SmartUrbanHeatMapClient.fetch_latest, if_pos ⟨h4, h6⟩]
  refine ⟨hf, ?_, ?_, ?_⟩
  · rw [Latest.SensorThingsConverter.convert, hf]
  · intro st bd hnot hload
    simp [Latest.SensorThingsConverter.convert,
      Latest.SmartUrbanHeatMapClient.fetch_latest, if_neg hnot, hload]
  · rw [Legacy.SensorThingsConverter.fetch_latest, if_neg (by omega)]

/-- Witness for the amended C8 at status 500. -/
theorem snapshot_failfast_modular_only_witness :
    ((400 : Nat) ≤ 500 ∧ (500 : Nat) < 600) ∧
    Latest.SmartUrbanHeatMapClient.fetch_latest 500 "" =
      Except.error (ConvError.transportError 500) ∧
    Legacy.SensorThingsConverter.fetch_latest 500 [] = Except.ok none :=
  ⟨⟨by decide, by decide⟩,
   (snapshot_failfast_modular_only 500 "" (fun _ => Except.ok [])
      [] (ConvError.parseError "x") (by decide) (by decide)).1,
   (snapshot_failfast_modular_only 500 "" (fun _ => Except.ok [])
      [] (ConvError.parseError "x") (by decide) (by decide)).2.2.2⟩
